import Mathlib

/-!
Verification of the Modbus-over-Serial-Line master module
(`Modbus_Project_Master/Master/Modbus_OSL.c`) against its specification.

The module's global variables become the fields of `OSLState`; each C
function becomes a Lean function from `OSLState` (plus its C parameters) to
`OSLState` paired with whatever the function emits (return value, bytes put
on the UART, calls into the application layer).  All 8-bit C variables
(`unsigned char`) are `Nat` with `% 256` wherever the C arithmetic can
wrap; `uint32_t` arithmetic takes `% 2 ^ 32`.  The module is embedded in
its RTU configuration (`Modbus_OSL_Mode = MODBUS_OSL_MODE_RTU`, the
default installed by `Modbus_OSL_Init`); the ASCII branches of the
module's switches are empty stubs in the source.

Functions of the companion modules `Modbus_OSL_RTU.c` / `Modbus_App.c` are
not part of the given source tree; where one decides a property it is
modelled from the specification text and its doc comment starts with
`Modelled from the spec:`.  Calls into the application layer
(`Modbus_App_No_Response`, `Modbus_App_Receive_Char`, ...) are external
collaborators and appear as returned values, never as state.
-/

/-- States of the master transaction diagram, `enum Modbus_OSL_MainStates`
(the values used by `Modbus_OSL.c`). -/
inductive Modbus_OSL_MainStates where
  | MODBUS_OSL_INITIAL
  | MODBUS_OSL_IDLE
  | MODBUS_OSL_WAITREPLY
  | MODBUS_OSL_PROCESSING
  | MODBUS_OSL_DELAY
  | MODBUS_OSL_ERROR
deriving DecidableEq, Repr

export Modbus_OSL_MainStates (MODBUS_OSL_INITIAL MODBUS_OSL_IDLE
  MODBUS_OSL_WAITREPLY MODBUS_OSL_PROCESSING MODBUS_OSL_DELAY
  MODBUS_OSL_ERROR)

/-- States of the RTU/ASCII reception sub-diagram, `enum Modbus_OSL_States`
(the values used by `Modbus_OSL.c`; the remaining reception states live in
the RTU companion module). -/
inductive Modbus_OSL_States where
  | MODBUS_OSL_RTU_IDLE
  | MODBUS_OSL_ASCII_IDLE
  | MODBUS_OSL_RTU_EMISSION
  | MODBUS_OSL_RTU_RECEPTION
  | MODBUS_OSL_RTU_CONTROLANDWAITING
deriving DecidableEq, Repr

export Modbus_OSL_States (MODBUS_OSL_RTU_IDLE MODBUS_OSL_ASCII_IDLE
  MODBUS_OSL_RTU_EMISSION MODBUS_OSL_RTU_RECEPTION
  MODBUS_OSL_RTU_CONTROLANDWAITING)

/-- Frame-correctness marker of the incoming frame,
`enum Modbus_OSL_Frames`. -/
inductive Modbus_OSL_Frames where
  | MODBUS_OSL_Frame_OK
  | MODBUS_OSL_Frame_NOK
deriving DecidableEq, Repr

export Modbus_OSL_Frames (MODBUS_OSL_Frame_OK MODBUS_OSL_Frame_NOK)

/-- The global mutable state of the OSL module (RTU configuration).
Fields mirror the file-scope variables of `Modbus_OSL.c` lines 56-95, the
Timer-2 / Timer-0 hardware registers the module drives, and the receive
buffer owned by the RTU companion module (`rtuMsg` with its length `rtuL`,
read through `Modbus_OSL_RTU_Char_Get` / `Modbus_OSL_RTU_L_Msg_Get`). -/
structure OSLState where
  /-- `Modbus_OSL_Frame` -/
  frame : Modbus_OSL_Frames
  /-- `Modbus_OSL_Processing_Flag` (0/1) -/
  processingFlag : Bool
  /-- `Modbus_OSL_Forward_Flag` (0/1) -/
  forwardFlag : Bool
  /-- `Modbus_OSL_Attempt`, unsigned char -/
  attempt : Nat
  /-- `Modbus_OSL_Max_Attempts`, unsigned char -/
  maxAttempts : Nat
  /-- `Modbus_OSL_Expected_Slave`, unsigned char -/
  expectedSlave : Nat
  /-- `Modbus_OSL_Req_ADU` (only its meaningful prefix is kept) -/
  reqADU : List Nat
  /-- `Modbus_OSL_L_Req_ADU`, unsigned char -/
  lReqADU : Nat
  /-- `Modbus_OSL_MainState` -/
  mainState : Modbus_OSL_MainStates
  /-- `Modbus_OSL_State` -/
  state : Modbus_OSL_States
  /-- `Modbus_OSL_Timeout_R`, uint32_t -/
  timeoutR : Nat
  /-- `Modbus_OSL_Timeout_B`, uint32_t -/
  timeoutB : Nat
  /-- load register of Timer 2 (written by `TimerLoadSet(TIMER2_BASE,..)`) -/
  timer2Load : Nat
  /-- Timer 2 running (set by `TimerEnable`, cleared by `TimerDisable`) -/
  timer2Enabled : Bool
  /-- Timer 0 running (the RTU 3.5T end-of-emission timer) -/
  timer0Enabled : Bool
  /-- receive buffer of the RTU companion module; `Modbus_OSL_RTU_Char_Get i`
  reads `rtuMsg.getD i 0` -/
  rtuMsg : List Nat
  /-- received-message length held by the RTU companion module,
  `Modbus_OSL_RTU_L_Msg_Get`, unsigned char -/
  rtuL : Nat
deriving DecidableEq, Repr

/-- `Modbus_OSL_Set_Timeout_R` (lines 228-253): response-timeout count as a
function of the baud rate.  `clock` is the value of `SysCtlClockGet()`
(counts per second); the products are `uint32_t` arithmetic, hence
`% 2 ^ 32`. -/
def Modbus_OSL_Set_Timeout_R (Baudrate clock : Nat) : Nat :=
  if Baudrate = 1200 then clock * 4 % 2 ^ 32
  else if Baudrate = 2400 then clock * 3 % 2 ^ 32
  else if Baudrate = 4800 then clock * 2 % 2 ^ 32
  else if Baudrate = 9600 then clock
  else clock / 2

/-- `Modbus_OSL_Set_Timeout_B` (lines 263-288): broadcast-delay count as a
function of the baud rate, with the same `uint32_t` conventions. -/
def Modbus_OSL_Set_Timeout_B (Baudrate clock : Nat) : Nat :=
  if Baudrate = 1200 then clock * 5 % 2 ^ 32 / 2
  else if Baudrate = 2400 then clock * 3 % 2 ^ 32 / 2
  else if Baudrate = 4800 then clock * 4 % 2 ^ 32 / 5
  else if Baudrate = 9600 then clock * 2 % 2 ^ 32 / 5
  else clock / 5

/-- `Modbus_OSL_BroadCast_Timeout` (lines 297-302): load Timer 2 with the
broadcast count, start it, and enter `MODBUS_OSL_DELAY`. -/
def Modbus_OSL_BroadCast_Timeout (s : OSLState) : OSLState :=
  { s with timer2Load := s.timeoutB, timer2Enabled := true,
           mainState := MODBUS_OSL_DELAY }

/-- `Modbus_OSL_Response_Timeout` (lines 312-317): load Timer 2 with the
response count, start it, and enter `MODBUS_OSL_WAITREPLY`. -/
def Modbus_OSL_Response_Timeout (s : OSLState) : OSLState :=
  { s with timer2Load := s.timeoutR, timer2Enabled := true,
           mainState := MODBUS_OSL_WAITREPLY }

/-- Outcome of a function that may divert into `Modbus_Fatal_Error`. -/
inductive TimeoutResult where
  | ok (s : OSLState)
  | fatal (code : Nat)
deriving DecidableEq, Repr

/-- `Modbus_OSL_Timeouts` (lines 328-341): the Timer-2 expiry interrupt.
In `MODBUS_OSL_WAITREPLY` go to `MODBUS_OSL_ERROR`; in `MODBUS_OSL_DELAY`
go back to `MODBUS_OSL_IDLE`; any other state diverts into
`Modbus_Fatal_Error(110)`. -/
def Modbus_OSL_Timeouts (s : OSLState) : TimeoutResult :=
  match s.mainState with
  | MODBUS_OSL_WAITREPLY =>
      TimeoutResult.ok { s with mainState := MODBUS_OSL_ERROR }
  | MODBUS_OSL_DELAY =>
      TimeoutResult.ok { s with mainState := MODBUS_OSL_IDLE }
  | _ => TimeoutResult.fatal 110

/-- Observable behaviour of `Modbus_Fatal_Error`: the values it writes to
any output channel while it runs, and whether it ever returns. -/
structure FatalBehavior where
  emits : List Nat
  returns : Bool
deriving DecidableEq, Repr

/-- `Modbus_Fatal_Error` (lines 654-660): the body is `while(1) { }` — an
infinite loop with an empty body.  It never returns (`returns = false`)
and performs no output operation of any kind (`emits = []`); the `Error`
argument is received but not used by the body. -/
def Modbus_Fatal_Error (_Error : Nat) : FatalBehavior :=
  { emits := [], returns := false }

/-- Modelled from the spec: `Modbus_OSL_RTU_UART` lives in the RTU
companion module (`Modbus_OSL_RTU.c`, not part of the given sources).
Per spec §4.2, an accepted character is appended to the receive buffer
(and the 1.5T inter-character timer is re-armed, which has no observable
field here). -/
def Modbus_OSL_RTU_UART (s : OSLState) (c : Nat) : OSLState :=
  { s with rtuMsg := s.rtuMsg ++ [c % 256] }

/-- What `UART1IntHandler` did with the incoming character. -/
inductive UARTAction where
  /-- the character was handed to the reception machine
  (`Modbus_OSL_RTU_UART`) -/
  | toReceptionSM
  /-- parity-error interrupt: the frame was marked NOK -/
  | markFrameNOK
  /-- `UARTCharGetNonBlocking`: the character was read and dropped,
  nothing buffered -/
  | discardUnbuffered
deriving DecidableEq, Repr

/-- `UART1IntHandler` (lines 465-510): the per-character UART interrupt.
If the main state is `MODBUS_OSL_WAITREPLY` or `MODBUS_OSL_ERROR`, a
parity-error status marks the frame NOK, otherwise the character goes to
the reception machine (RTU mode).  In every other main state the character
is read with `UARTCharGetNonBlocking` and discarded.  `isPE` is the test
`UART_INT_PE == ulStatus`; `c` is the pending character. -/
def UART1IntHandler (s : OSLState) (isPE : Bool) (c : Nat) :
    OSLState × UARTAction :=
  if s.mainState = MODBUS_OSL_WAITREPLY ∨ s.mainState = MODBUS_OSL_ERROR then
    if isPE then
      ({ s with frame := MODBUS_OSL_Frame_NOK }, UARTAction.markFrameNOK)
    else
      (Modbus_OSL_RTU_UART s c, UARTAction.toReceptionSM)
  else
    (s, UARTAction.discardUnbuffered)

/-- `Modbus_OSL_Reception_Complete` (lines 685-689): raise the
completed-message flag, but only when the main state is still
`MODBUS_OSL_WAITREPLY`. -/
def Modbus_OSL_Reception_Complete (s : OSLState) : OSLState :=
  if s.mainState = MODBUS_OSL_WAITREPLY then
    { s with processingFlag := true }
  else s

/-- `Modbus_OSL_Processing_Msg` (lines 699-707): read the
completed-message flag and clear it (done with interrupts masked in the
source, which the sequential embedding renders atomic by construction). -/
def Modbus_OSL_Processing_Msg (s : OSLState) : OSLState × Bool :=
  ({ s with processingFlag := false }, s.processingFlag)

/-- Core step of the Modbus CRC16: `n` shift rounds of
`if (crc & 1) crc = (crc >> 1) ^ 0xA001; else crc >>= 1;`. -/
def crcShift : Nat → Nat → Nat
  | 0, crc => crc
  | n + 1, crc =>
      crcShift n (if crc % 2 = 1 then crc / 2 ^^^ 0xA001 else crc / 2)

/-- Modelled from the spec: `ComputeCRC16(bytes)` (spec §4.3), the standard
Modbus CRC16 — initial value 0xFFFF, per byte XOR then 8 shift rounds with
polynomial 0xA001.  The implementation lives in `Modbus_OSL_RTU.c`, not in
the given sources. -/
def Modbus_CRC16 (bytes : List Nat) : Nat :=
  bytes.foldl (fun crc b => crcShift 8 (crc ^^^ b % 256)) 0xFFFF

/-- Modelled from the spec: `Modbus_OSL_RTU_Control_CRC` lives in
`Modbus_OSL_RTU.c` (not in the given sources).  Per spec §4.3
`ValidateCRC(frame)` recomputes the CRC over all bytes of the received
message except the trailing two and compares it with those two (low byte
first). -/
def Modbus_OSL_RTU_Control_CRC (s : OSLState) : Bool :=
  Modbus_CRC16 (s.rtuMsg.take (s.rtuL - 2)) ==
    s.rtuMsg.getD (s.rtuL - 2) 0 + 256 * s.rtuMsg.getD (s.rtuL - 1) 0

/-- `Modbus_OSL_RTU_to_App` (lines 719-728): hand the validated message to
the application layer.  Characters 1 .. L-1 of the received message are
passed through `Modbus_App_Receive_Char` (character 0 is the slave
number), and `Modbus_App_L_Msg_Set(L - 1)` sets the delivered length
(`L - 1` in unsigned-char arithmetic).  The pair returned here is that
delivered character list together with the delivered length. -/
def Modbus_OSL_RTU_to_App (s : OSLState) : List Nat × Nat :=
  (((List.range s.rtuL).drop 1).map (fun i => s.rtuMsg.getD i 0),
    (s.rtuL + 255) % 256)

/-- `Modbus_OSL_Receive_CallBack` (lines 741-796), RTU mode: if a complete
message is pending (`Modbus_OSL_Processing_Msg`, which clears the flag),
read its slave number (character 0) and compare with
`Modbus_OSL_Expected_Slave`.  On a match: stop Timer 2, enter
`MODBUS_OSL_PROCESSING`, then check the CRC; on success deliver the
message to the application layer and return 1; on failure restore the
frame marker to OK, enter `MODBUS_OSL_ERROR`, and return 0.  On a slave
mismatch (or no pending message) nothing further happens and 0 is
returned.  The result is (new state, C return value, message delivered to
the application layer if any). -/
def Modbus_OSL_Receive_CallBack (s : OSLState) :
    OSLState × Bool × Option (List Nat × Nat) :=
  let p := Modbus_OSL_Processing_Msg s
  if p.2 then
    let slave := p.1.rtuMsg.getD 0 0
    if slave = p.1.expectedSlave then
      let s1 := { p.1 with timer2Enabled := false,
                           mainState := MODBUS_OSL_PROCESSING }
      if Modbus_OSL_RTU_Control_CRC s1 then
        (s1, true, some (Modbus_OSL_RTU_to_App s1))
      else
        ({ s1 with frame := MODBUS_OSL_Frame_OK,
                   mainState := MODBUS_OSL_ERROR }, false, none)
    else (p.1, false, none)
  else (p.1, false, none)

/-- `Modbus_OSL_Resend` (lines 587-594): return the forward flag and clear
it, so the resend flag is consumed at most once per activation. -/
def Modbus_OSL_Resend (s : OSLState) : OSLState × Bool :=
  ({ s with forwardFlag := false }, s.forwardFlag)

/-- `Modbus_OSL_Repeat_Request` (lines 604-616): if the attempt count is
below the maximum, increment it and raise the forward (resend) flag;
otherwise call `Modbus_App_No_Response()` (modelled as the returned
`Bool`) and reset the attempt count to 1.  `Modbus_OSL_Attempt++` is
unsigned-char arithmetic, hence the `% 256`. -/
def Modbus_OSL_Repeat_Request (s : OSLState) : OSLState × Bool :=
  if s.attempt < s.maxAttempts then
    ({ s with attempt := (s.attempt + 1) % 256, forwardFlag := true }, false)
  else
    ({ s with attempt := 1 }, true)

/-- Iterated retry tracking: `repeatRetry n s` performs `n` consecutive
calls of `Modbus_OSL_Repeat_Request` (one per timeout or CRC failure on
the same request, as driven by the `MODBUS_OSL_ERROR` branch of
`Modbus_OSL_Serial_Comm`) and counts how many `Modbus_App_No_Response`
notifications were emitted. -/
def repeatRetry : Nat → OSLState → OSLState × Nat
  | 0, s => (s, 0)
  | n + 1, s =>
    let p := Modbus_OSL_Repeat_Request s
    let q := repeatRetry n p.1
    (q.1, (if p.2 then 1 else 0) + q.2)

/-- Modelled from the spec: `Modbus_OSL_RTU_Mount_ADU` lives in
`Modbus_OSL_RTU.c` (not in the given sources).  Per spec §4.3
`MountADU(pdu, targetAddress)` prepends the 1-byte address and appends the
2-byte CRC, low byte first. -/
def Modbus_OSL_RTU_Mount_ADU (mb_req_pdu : List Nat)
    (Slave L_pdu : Nat) : List Nat :=
  let base := Slave % 256 :: mb_req_pdu.take L_pdu
  base ++ [Modbus_CRC16 base % 256, Modbus_CRC16 base / 256 % 256]

/-- The transmit loop of `Modbus_OSL_Send` (lines 875-891):
`for (i = 0; i < L_adu; i++) UARTCharPut(..., mb_req_adu[i]);` where `i`
is a plain `char`.  On the ARM EABI targets of this project (Cortex-M3)
plain `char` is unsigned, so the counter is an 8-bit unsigned value and
the increment wraps modulo 256.  The loop is rendered with explicit fuel:
`some bytes` means the loop reached its exit condition within `fuel`
iterations having put `bytes` on the UART; `none` means it had not yet
exited. -/
def sendLoop (mb_req_adu : List Nat) (L_adu : Nat) :
    Nat → Nat → Option (List Nat)
  | 0, i => if i < L_adu then none else some []
  | fuel + 1, i =>
    if i < L_adu then
      (sendLoop mb_req_adu L_adu fuel ((i + 1) % 256)).map
        (fun rest => mb_req_adu.getD i 0 :: rest)
    else some []

/-- `Modbus_OSL_Send` (lines 875-891): transmit the first `L_adu` bytes of
the mounted ADU.  `L_adu` is an unsigned char (≤ 255), so 256 units of
fuel always suffice for the loop to reach its exit condition. -/
def Modbus_OSL_Send (mb_req_adu : List Nat) (L_adu : Nat) :
    Option (List Nat) :=
  sendLoop mb_req_adu L_adu 256 0

/-- `Modbus_OSL_Output` (lines 826-865), RTU mode: mount the ADU, record
its length (`L_pdu + 3` in unsigned-char arithmetic), enter the RTU
EMISSION sub-state, record the expected slave, transmit, arm Timer 0
(3.5T), then arm Timer 2 as the broadcast delay (entering
`MODBUS_OSL_DELAY`) when the request is a broadcast
(`Modbus_OSL_Expected_Slave == 0`) or as the response timeout (entering
`MODBUS_OSL_WAITREPLY`) otherwise.  The second component is the byte
sequence put on the UART. -/
def Modbus_OSL_Output (s : OSLState) (mb_req_pdu : List Nat)
    (Slave L_pdu : Nat) : OSLState × Option (List Nat) :=
  let s1 := { s with
    reqADU := Modbus_OSL_RTU_Mount_ADU mb_req_pdu Slave L_pdu,
    lReqADU := (L_pdu + 3) % 256,
    state := MODBUS_OSL_RTU_EMISSION }
  let s2 := { s1 with expectedSlave := Slave % 256 }
  let sent := Modbus_OSL_Send s2.reqADU s2.lReqADU
  let s3 := { s2 with timer0Enabled := true }
  if s3.expectedSlave = 0 then (Modbus_OSL_BroadCast_Timeout s3, sent)
  else (Modbus_OSL_Response_Timeout s3, sent)

/-- A concrete module state used to instantiate theorems: the state right
after `Modbus_OSL_Init(B9600, MODBUS_OSL_MODE_RTU, 3)` once the machine
has advanced to `MODBUS_OSL_IDLE`, with an 8 MHz system clock. -/
def baseState : OSLState where
  frame := MODBUS_OSL_Frame_OK
  processingFlag := false
  forwardFlag := false
  attempt := 1
  maxAttempts := 3
  expectedSlave := 5
  reqADU := []
  lReqADU := 0
  mainState := MODBUS_OSL_IDLE
  state := MODBUS_OSL_RTU_IDLE
  timeoutR := 8000000
  timeoutB := 3200000
  timer2Load := 0
  timer2Enabled := false
  timer0Enabled := false
  rtuMsg := []
  rtuL := 0

/-- Concrete state: awaiting a reply from slave 5, with a complete,
correctly CRC'd reply from slave 5 pending in the receive buffer. -/
def waitReplyGoodState : OSLState :=
  { baseState with
    mainState := MODBUS_OSL_WAITREPLY,
    processingFlag := true,
    timer2Enabled := true,
    rtuMsg := Modbus_OSL_RTU_Mount_ADU [3, 0, 0, 0, 1] 5 5,
    rtuL := 8 }

/-- Concrete state: awaiting a reply from slave 5, with a complete pending
reply from slave 5 whose CRC bytes are corrupted (both zero). -/
def waitReplyBadCRCState : OSLState :=
  { baseState with
    mainState := MODBUS_OSL_WAITREPLY,
    processingFlag := true,
    timer2Enabled := true,
    rtuMsg := [5, 3, 0, 0, 0, 1, 0, 0],
    rtuL := 8 }

/-- Concrete state: awaiting a reply from slave 5, with a complete,
correctly CRC'd pending frame that came from slave 7 instead. -/
def wrongSlaveState : OSLState :=
  { baseState with
    mainState := MODBUS_OSL_WAITREPLY,
    processingFlag := true,
    timer2Enabled := true,
    rtuMsg := Modbus_OSL_RTU_Mount_ADU [3, 0, 0, 0, 1] 7 5,
    rtuL := 8 }

/-- Helper: running `n` consecutive retry calls starting with
`attempt + n = maxAttempts + 1` (and `1 ≤ n`, `maxAttempts ≤ 255`) emits
exactly one no-response notification and leaves the counter at 1. -/
theorem repeatRetry_exhausts (n : Nat) :
    ∀ s : OSLState, 1 ≤ n → s.maxAttempts ≤ 255 →
      s.attempt + n = s.maxAttempts + 1 →
      (repeatRetry n s).2 = 1 ∧ (repeatRetry n s).1.attempt = 1 := by
  induction n with
  | zero => intro s h1 _ _; omega
  | succ m ih =>
    intro s _ hmax hsum
    match m, ih with
    | 0, _ =>
      have hge : ¬ s.attempt < s.maxAttempts := by omega
      simp [repeatRetry, Modbus_OSL_Repeat_Request, hge]
    | m' + 1, ih =>
      have hlt : s.attempt < s.maxAttempts := by omega
      have hinc : (s.attempt + 1) % 256 = s.attempt + 1 :=
        Nat.mod_eq_of_lt (by omega)
      have step :
          Modbus_OSL_Repeat_Request s =
            ({ s with attempt := s.attempt + 1, forwardFlag := true },
              false) := by
        simp [Modbus_OSL_Repeat_Request, hlt, hinc]
      have ihres :=
        ih { s with attempt := s.attempt + 1, forwardFlag := true }
          (by omega) (by simpa using hmax) (by simp; omega)
      simp [repeatRetry, step]
      exact ihres

/-- C1: every call of `Modbus_OSL_Repeat_Request` with
`attempt < maxAttempts` increments the attempt counter by exactly one and
raises the resend flag; otherwise it emits the no-response notification
and resets the counter to 1.  Consequently, starting a request at
`attempt = 1`, `maxAttempts` consecutive timeout/CRC-failure calls emit
the notification exactly once and leave the counter back at 1
(`maxAttempts` is an unsigned char, hence `≤ 255`). -/
theorem claim_C1_retry_tracker (s : OSLState) (hmax : s.maxAttempts ≤ 255) :
    (s.attempt < s.maxAttempts →
      Modbus_OSL_Repeat_Request s =
        ({ s with attempt := s.attempt + 1, forwardFlag := true }, false)) ∧
    (¬ s.attempt < s.maxAttempts →
      Modbus_OSL_Repeat_Request s = ({ s with attempt := 1 }, true)) ∧
    (s.attempt = 1 → 1 ≤ s.maxAttempts →
      (repeatRetry s.maxAttempts s).2 = 1 ∧
      (repeatRetry s.maxAttempts s).1.attempt = 1) := by
  refine ⟨?_, ?_, ?_⟩
  · intro hlt
    have hinc : (s.attempt + 1) % 256 = s.attempt + 1 :=
      Nat.mod_eq_of_lt (by omega)
    simp [Modbus_OSL_Repeat_Request, hlt, hinc]
  · intro hge
    simp [Modbus_OSL_Repeat_Request, hge]
  · intro h1 hpos
    exact repeatRetry_exhausts s.maxAttempts s hpos hmax (by omega)

/-- Witness for C1 at `baseState` (`attempt = 1`, `maxAttempts = 3`):
three consecutive retry calls emit exactly one no-response notification
and leave the counter at 1. -/
theorem claim_C1_retry_tracker_witness :
    baseState.maxAttempts ≤ 255 ∧ baseState.attempt = 1 ∧
    1 ≤ baseState.maxAttempts ∧
    (repeatRetry baseState.maxAttempts baseState).2 = 1 ∧
    (repeatRetry baseState.maxAttempts baseState).1.attempt = 1 := by
  have h := (claim_C1_retry_tracker baseState (by decide)).2.2 rfl (by decide)
  exact ⟨by decide, rfl, by decide, h.1, h.2⟩

/-- C2: a request sent to address 0 (broadcast) never enters
`MODBUS_OSL_WAITREPLY`: `Modbus_OSL_Output` arms Timer 2 with the
broadcast delay and moves to `MODBUS_OSL_DELAY`, and the Timer-2 expiry
(`Modbus_OSL_Timeouts`) then returns the engine to `MODBUS_OSL_IDLE`, so
the sequence is Idle → (send) → Delay → Idle and no reply is awaited. -/
theorem claim_C2_broadcast_no_waitreply (s : OSLState)
    (mb_req_pdu : List Nat) (L_pdu : Nat) :
    (Modbus_OSL_Output s mb_req_pdu 0 L_pdu).1.mainState =
      MODBUS_OSL_DELAY ∧
    (Modbus_OSL_Output s mb_req_pdu 0 L_pdu).1.mainState ≠
      MODBUS_OSL_WAITREPLY ∧
    (Modbus_OSL_Output s mb_req_pdu 0 L_pdu).1.timer2Load = s.timeoutB ∧
    (Modbus_OSL_Output s mb_req_pdu 0 L_pdu).1.timer2Enabled = true ∧
    Modbus_OSL_Timeouts (Modbus_OSL_Output s mb_req_pdu 0 L_pdu).1 =
      TimeoutResult.ok
        { (Modbus_OSL_Output s mb_req_pdu 0 L_pdu).1 with
            mainState := MODBUS_OSL_IDLE } := by
  simp [Modbus_OSL_Output, Modbus_OSL_BroadCast_Timeout,
        Modbus_OSL_Timeouts]

/-- C3: in `MODBUS_OSL_WAITREPLY`, when a complete frame from the expected
slave is pending, `Modbus_OSL_Receive_CallBack` stops Timer 2 (the
response timer) and sets `MODBUS_OSL_PROCESSING` before checking the CRC;
on CRC failure it restores the frame marker to `MODBUS_OSL_Frame_OK` and
moves to `MODBUS_OSL_ERROR` delivering nothing; on CRC success it leaves
the state in `MODBUS_OSL_PROCESSING`, returns 1, and delivers the PDU to
the application layer. -/
theorem claim_C3_expected_reply_processing (s : OSLState)
    (hflag : s.processingFlag = true)
    (hslave : s.rtuMsg.getD 0 0 = s.expectedSlave) :
    (Modbus_OSL_Receive_CallBack s).1.timer2Enabled = false ∧
    (Modbus_OSL_RTU_Control_CRC s = true →
      (Modbus_OSL_Receive_CallBack s).1.mainState = MODBUS_OSL_PROCESSING ∧
      (Modbus_OSL_Receive_CallBack s).2.1 = true ∧
      (Modbus_OSL_Receive_CallBack s).2.2 =
        some (Modbus_OSL_RTU_to_App s)) ∧
    (Modbus_OSL_RTU_Control_CRC s = false →
      (Modbus_OSL_Receive_CallBack s).1.mainState = MODBUS_OSL_ERROR ∧
      (Modbus_OSL_Receive_CallBack s).1.frame = MODBUS_OSL_Frame_OK ∧
      (Modbus_OSL_Receive_CallBack s).2.1 = false ∧
      (Modbus_OSL_Receive_CallBack s).2.2 = none) := by
  have hslave2 : s.rtuMsg[0]?.getD 0 = s.expectedSlave := by
    simpa using hslave
  have hcrc : ∀ b : Bool, Modbus_OSL_RTU_Control_CRC s = b →
      Modbus_OSL_RTU_Control_CRC
        { s with processingFlag := false, timer2Enabled := false,
                 mainState := MODBUS_OSL_PROCESSING } = b := by
    intro b hb
    simpa [Modbus_OSL_RTU_Control_CRC] using hb
  constructor
  · rcases hb : Modbus_OSL_RTU_Control_CRC s with _ | _ <;>
      simp [Modbus_OSL_Receive_CallBack, Modbus_OSL_Processing_Msg, hflag,
            hslave2, hcrc _ hb]
  constructor
  · intro hb
    simp [Modbus_OSL_Receive_CallBack, Modbus_OSL_Processing_Msg, hflag,
          hslave2, hcrc _ hb, Modbus_OSL_RTU_to_App]
  · intro hb
    simp [Modbus_OSL_Receive_CallBack, Modbus_OSL_Processing_Msg, hflag,
          hslave2, hcrc _ hb]

set_option maxRecDepth 4096 in
/-- Witness for C3 at `waitReplyGoodState` (valid CRC) and
`waitReplyBadCRCState` (corrupted CRC). -/
theorem claim_C3_expected_reply_processing_witness :
    ((Modbus_OSL_Receive_CallBack waitReplyGoodState).1.timer2Enabled
        = false ∧
      (Modbus_OSL_Receive_CallBack waitReplyGoodState).1.mainState
        = MODBUS_OSL_PROCESSING ∧
      (Modbus_OSL_Receive_CallBack waitReplyGoodState).2.1 = true) ∧
    ((Modbus_OSL_Receive_CallBack waitReplyBadCRCState).1.mainState
        = MODBUS_OSL_ERROR ∧
      (Modbus_OSL_Receive_CallBack waitReplyBadCRCState).1.frame
        = MODBUS_OSL_Frame_OK ∧
      (Modbus_OSL_Receive_CallBack waitReplyBadCRCState).2.2 = none) := by
  have hg := claim_C3_expected_reply_processing waitReplyGoodState rfl
    (by decide)
  have hgood := hg.2.1 (by decide)
  have hb := claim_C3_expected_reply_processing waitReplyBadCRCState rfl
    (by decide)
  have hbad := hb.2.2 (by decide)
  exact ⟨⟨hg.1, hgood.1, hgood.2.1⟩, hbad.1, hbad.2.1, hbad.2.2.2⟩

/-- C4: `UART1IntHandler` hands the incoming character to the reception
machine only while the main state is `MODBUS_OSL_WAITREPLY` or
`MODBUS_OSL_ERROR`; in `MODBUS_OSL_ERROR` a non-parity-error character is
still consumed by the reception machine (draining a straggling message);
in every other main state the character is read from the UART and
discarded with no state change. -/
theorem claim_C4_char_routing (s : OSLState) (isPE : Bool) (c : Nat) :
    ((UART1IntHandler s isPE c).2 = UARTAction.toReceptionSM →
      s.mainState = MODBUS_OSL_WAITREPLY ∨
      s.mainState = MODBUS_OSL_ERROR) ∧
    (s.mainState = MODBUS_OSL_ERROR → isPE = false →
      UART1IntHandler s isPE c =
        (Modbus_OSL_RTU_UART s c, UARTAction.toReceptionSM)) ∧
    (¬ (s.mainState = MODBUS_OSL_WAITREPLY ∨
        s.mainState = MODBUS_OSL_ERROR) →
      UART1IntHandler s isPE c = (s, UARTAction.discardUnbuffered)) := by
  refine ⟨?_, ?_, ?_⟩
  · intro hact
    by_contra hnot
    simp [UART1IntHandler, hnot] at hact
  · intro herr hpe
    simp [UART1IntHandler, herr, hpe]
  · intro hnot
    simp [UART1IntHandler, hnot]

/-- Witness for C4: in `MODBUS_OSL_IDLE` (`baseState`) the character is
read and discarded unbuffered; in `MODBUS_OSL_ERROR` it still reaches the
reception machine. -/
theorem claim_C4_char_routing_witness :
    UART1IntHandler baseState false 55 =
      (baseState, UARTAction.discardUnbuffered) ∧
    UART1IntHandler { baseState with mainState := MODBUS_OSL_ERROR }
        false 55 =
      (Modbus_OSL_RTU_UART
        { baseState with mainState := MODBUS_OSL_ERROR } 55,
        UARTAction.toReceptionSM) := by
  constructor
  · exact (claim_C4_char_routing baseState false 55).2.2 (by decide)
  · exact (claim_C4_char_routing
      { baseState with mainState := MODBUS_OSL_ERROR } false 55).2.1
      rfl rfl

/-- C5: `Modbus_OSL_Reception_Complete` raises the processing flag only
when the main state is still `MODBUS_OSL_WAITREPLY` at the moment
reception completes; in any other state (such as `MODBUS_OSL_ERROR` after
the response timeout) the state is untouched, and with the flag left
clear the consumer `Modbus_OSL_Receive_CallBack` returns 0 and delivers
nothing. -/
theorem claim_C5_completion_gate (s : OSLState) :
    (s.mainState = MODBUS_OSL_WAITREPLY →
      Modbus_OSL_Reception_Complete s = { s with processingFlag := true }) ∧
    (s.mainState ≠ MODBUS_OSL_WAITREPLY →
      Modbus_OSL_Reception_Complete s = s) ∧
    (s.processingFlag = false →
      (Modbus_OSL_Receive_CallBack s).2.1 = false ∧
      (Modbus_OSL_Receive_CallBack s).2.2 = none) := by
  refine ⟨?_, ?_, ?_⟩
  · intro h; simp [Modbus_OSL_Reception_Complete, h]
  · intro h; simp [Modbus_OSL_Reception_Complete, h]
  · intro h
    simp [Modbus_OSL_Receive_CallBack, Modbus_OSL_Processing_Msg, h]

/-- Witness for C5: with the response timeout already fired
(`MODBUS_OSL_ERROR`, flag clear), completion changes nothing and the
consumer sees no message. -/
theorem claim_C5_completion_gate_witness :
    Modbus_OSL_Reception_Complete
        { baseState with mainState := MODBUS_OSL_ERROR } =
      { baseState with mainState := MODBUS_OSL_ERROR } ∧
    (Modbus_OSL_Receive_CallBack
        { baseState with mainState := MODBUS_OSL_ERROR }).2.1 = false ∧
    (Modbus_OSL_Receive_CallBack
        { baseState with mainState := MODBUS_OSL_ERROR }).2.2 = none := by
  have h := claim_C5_completion_gate
    { baseState with mainState := MODBUS_OSL_ERROR }
  exact ⟨h.2.1 (by decide), (h.2.2 rfl).1, (h.2.2 rfl).2⟩

/-- C8: in `MODBUS_OSL_WAITREPLY`, consuming a complete frame whose source
address differs from the expected slave changes nothing but the
completed-message flag: `Modbus_OSL_Receive_CallBack` clears that flag and
returns 0, the main state remains `MODBUS_OSL_WAITREPLY`, Timer 2 keeps
running, and nothing is delivered — recovery relies on the response timer
alone. -/
theorem claim_C8_wrong_responder (s : OSLState)
    (hflag : s.processingFlag = true)
    (hslave : s.rtuMsg.getD 0 0 ≠ s.expectedSlave)
    (hwait : s.mainState = MODBUS_OSL_WAITREPLY) :
    Modbus_OSL_Receive_CallBack s =
      ({ s with processingFlag := false }, false, none) ∧
    (Modbus_OSL_Receive_CallBack s).1.mainState = MODBUS_OSL_WAITREPLY ∧
    (Modbus_OSL_Receive_CallBack s).1.timer2Enabled = s.timer2Enabled := by
  have hslave2 : ¬ s.rtuMsg[0]?.getD 0 = s.expectedSlave := by
    simpa using hslave
  have h : Modbus_OSL_Receive_CallBack s =
      ({ s with processingFlag := false }, false, none) := by
    simp [Modbus_OSL_Receive_CallBack, Modbus_OSL_Processing_Msg, hflag,
          hslave2]
  refine ⟨h, ?_, ?_⟩ <;> simp [h, hwait]

set_option maxRecDepth 4096 in
/-- Witness for C8 at `wrongSlaveState` (frame from slave 7 while
expecting slave 5). -/
theorem claim_C8_wrong_responder_witness :
    Modbus_OSL_Receive_CallBack wrongSlaveState =
      ({ wrongSlaveState with processingFlag := false }, false, none) ∧
    (Modbus_OSL_Receive_CallBack wrongSlaveState).1.mainState =
      MODBUS_OSL_WAITREPLY ∧
    (Modbus_OSL_Receive_CallBack wrongSlaveState).1.timer2Enabled =
      true := by
  have h := claim_C8_wrong_responder wrongSlaveState rfl (by decide) rfl
  exact ⟨h.1, h.2.1, h.2.2⟩

/-- C6: for every baud value of the timeout table, configuration computes
exactly the listed durations scaled to the reference clock: response
timeout 4 s / 3 s / 2 s / 1 s at 1200 / 2400 / 4800 / 9600 baud and 0.5 s
otherwise; broadcast delay 2.5 s / 1.5 s / 0.8 s / 0.4 s at those rates
and 0.2 s otherwise.  Fractional durations appear multiplied out
(e.g. `2 * B = 5 * clock` is 2.5 s exactly); exactness needs the clock
frequency to be a multiple of 10 and the products not to wrap `uint32_t`
(`clock * 5 < 2 ^ 32`), both true of the target hardware. -/
theorem claim_C6_timeout_table (clock : Nat) (hdiv : 10 ∣ clock)
    (hov : clock * 5 < 2 ^ 32) :
    Modbus_OSL_Set_Timeout_R 1200 clock = 4 * clock ∧
    Modbus_OSL_Set_Timeout_R 2400 clock = 3 * clock ∧
    Modbus_OSL_Set_Timeout_R 4800 clock = 2 * clock ∧
    Modbus_OSL_Set_Timeout_R 9600 clock = clock ∧
    (∀ b, b ≠ 1200 → b ≠ 2400 → b ≠ 4800 → b ≠ 9600 →
      2 * Modbus_OSL_Set_Timeout_R b clock = clock) ∧
    2 * Modbus_OSL_Set_Timeout_B 1200 clock = 5 * clock ∧
    2 * Modbus_OSL_Set_Timeout_B 2400 clock = 3 * clock ∧
    5 * Modbus_OSL_Set_Timeout_B 4800 clock = 4 * clock ∧
    5 * Modbus_OSL_Set_Timeout_B 9600 clock = 2 * clock ∧
    (∀ b, b ≠ 1200 → b ≠ 2400 → b ≠ 4800 → b ≠ 9600 →
      5 * Modbus_OSL_Set_Timeout_B b clock = clock) := by
  obtain ⟨k, rfl⟩ := hdiv
  have h32 : (2 : Nat) ^ 32 = 4294967296 := by norm_num
  rw [h32] at hov
  refine ⟨?_, ?_, ?_, ?_, ?_, ?_, ?_, ?_, ?_, ?_⟩
  · simp only [Modbus_OSL_Set_Timeout_R]; norm_num [h32]; omega
  · simp only [Modbus_OSL_Set_Timeout_R]; norm_num [h32]; omega
  · simp only [Modbus_OSL_Set_Timeout_R]; norm_num [h32]; omega
  · simp only [Modbus_OSL_Set_Timeout_R]; norm_num
  · intro b h1 h2 h3 h4
    simp only [Modbus_OSL_Set_Timeout_R, if_neg h1, if_neg h2, if_neg h3,
               if_neg h4]
    omega
  · simp only [Modbus_OSL_Set_Timeout_B]; norm_num [h32]; omega
  · simp only [Modbus_OSL_Set_Timeout_B]; norm_num [h32]; omega
  · simp only [Modbus_OSL_Set_Timeout_B]; norm_num [h32]; omega
  · simp only [Modbus_OSL_Set_Timeout_B]; norm_num [h32]; omega
  · intro b h1 h2 h3 h4
    simp only [Modbus_OSL_Set_Timeout_B, if_neg h1, if_neg h2, if_neg h3,
               if_neg h4]
    omega

/-- Witness for C6 at an 8 MHz reference clock (9600 baud row: 1 s
response timeout, i.e. 8000000 counts, and 0.4 s broadcast delay,
i.e. 3200000 counts). -/
theorem claim_C6_timeout_table_witness :
    10 ∣ 8000000 ∧ 8000000 * 5 < 2 ^ 32 ∧
    Modbus_OSL_Set_Timeout_R 9600 8000000 = 8000000 ∧
    5 * Modbus_OSL_Set_Timeout_B 9600 8000000 = 2 * 8000000 := by
  have h := claim_C6_timeout_table 8000000 (by norm_num) (by norm_num)
  exact ⟨by norm_num, by norm_num, h.2.2.2.1, h.2.2.2.2.2.2.2.2.1⟩

/-- C7 counterexample: a Timer-2 expiry in `MODBUS_OSL_IDLE` (neither
WaitReply nor Delay) does divert into the fatal guard with code 110, and
the guard halts — but, contrary to the claim, it reports nothing: the
body of `Modbus_Fatal_Error` is an empty infinite loop, so no identifying
code is emitted on any operator-visible channel. -/
theorem claim_C7_counterexample :
    Modbus_OSL_Timeouts baseState = TimeoutResult.fatal 110 ∧
    ¬ (Modbus_Fatal_Error 110).emits ≠ [] := by decide

/-- C7 (amended): a timer-expiry event delivered while the main state is
neither `MODBUS_OSL_WAITREPLY` nor `MODBUS_OSL_DELAY` diverts into the
fatal invariant guard with identifying code 110; the guard halts all
further protocol progress deterministically (it never returns), but the
identifying code is only held in the guard's argument — nothing is
emitted on any output channel. -/
theorem claim_C7_fatal_guard (s : OSLState)
    (h1 : s.mainState ≠ MODBUS_OSL_WAITREPLY)
    (h2 : s.mainState ≠ MODBUS_OSL_DELAY) :
    Modbus_OSL_Timeouts s = TimeoutResult.fatal 110 ∧
    (Modbus_Fatal_Error 110).returns = false ∧
    (Modbus_Fatal_Error 110).emits = [] := by
  refine ⟨?_, rfl, rfl⟩
  rcases hs : s.mainState <;>
    simp [Modbus_OSL_Timeouts, hs] <;> simp [hs] at h1 h2

/-- Witness for C7 at a state stuck in `MODBUS_OSL_PROCESSING`. -/
theorem claim_C7_fatal_guard_witness :
    Modbus_OSL_Timeouts
        { baseState with mainState := MODBUS_OSL_PROCESSING } =
      TimeoutResult.fatal 110 ∧
    (Modbus_Fatal_Error 110).returns = false := by
  have h := claim_C7_fatal_guard
    { baseState with mainState := MODBUS_OSL_PROCESSING }
    (by decide) (by decide)
  exact ⟨h.1, h.2.1⟩

/-- C9: mounting the ADU for an outbound PDU of length `L_pdu` stores a
frame of `L_pdu + 3` bytes (1 address byte plus 2 CRC bytes appended to
the PDU), and the recorded length `Modbus_OSL_L_Req_ADU` is an unsigned
char, so the stored value is `(L_pdu + 3) % 256`. -/
theorem claim_C9_adu_length (s : OSLState) (mb_req_pdu : List Nat)
    (Slave L_pdu : Nat) (hlen : L_pdu ≤ mb_req_pdu.length) :
    (Modbus_OSL_Output s mb_req_pdu Slave L_pdu).1.reqADU.length =
      L_pdu + 3 ∧
    (Modbus_OSL_Output s mb_req_pdu Slave L_pdu).1.lReqADU =
      (L_pdu + 3) % 256 := by
  have hmount : (Modbus_OSL_RTU_Mount_ADU mb_req_pdu Slave L_pdu).length =
      L_pdu + 3 := by
    simp [Modbus_OSL_RTU_Mount_ADU, Nat.min_eq_left hlen]
  simp only [Modbus_OSL_Output]
  split <;>
    simp [Modbus_OSL_BroadCast_Timeout, Modbus_OSL_Response_Timeout,
          hmount]

/-- Witness for C9: a 5-byte PDU to slave 5 mounts to an 8-byte frame and
records length 8. -/
theorem claim_C9_adu_length_witness :
    (5 : Nat) ≤ ([3, 0, 0, 0, 1] : List Nat).length ∧
    (Modbus_OSL_Output baseState [3, 0, 0, 0, 1] 5 5).1.reqADU.length
      = 8 ∧
    (Modbus_OSL_Output baseState [3, 0, 0, 0, 1] 5 5).1.lReqADU = 8 := by
  have h := claim_C9_adu_length baseState [3, 0, 0, 0, 1] 5 5
    (by norm_num)
  exact ⟨by norm_num, h.1, h.2⟩

/-- Helper: the transmit loop of `Modbus_OSL_Send` reaches its exit
condition: started at index `i ≤ L_adu` with at least `L_adu - i` fuel,
and with `L_adu ≤ 255` (so the unsigned-char increment never wraps before
the exit test fails) and `L_adu` within the buffer, it exits having put
exactly the remaining bytes `(take L_adu).drop i` on the UART, in
order. -/
theorem sendLoop_exits (mb_req_adu : List Nat) (L_adu : Nat)
    (h255 : L_adu ≤ 255) (hlen : L_adu ≤ mb_req_adu.length) :
    ∀ fuel i, i ≤ L_adu → L_adu - i ≤ fuel →
      sendLoop mb_req_adu L_adu fuel i =
        some ((mb_req_adu.take L_adu).drop i) := by
  intro fuel
  induction fuel with
  | zero =>
    intro i hi hfuel
    have hge : ¬ i < L_adu := by omega
    have hnil : (mb_req_adu.take L_adu).length ≤ i := by
      simp only [List.length_take, Nat.min_eq_left hlen]; omega
    simp [sendLoop, hge, List.drop_eq_nil_of_le hnil]
  | succ m ih =>
    intro i hi hfuel
    by_cases hlt : i < L_adu
    · have hmod : (i + 1) % 256 = i + 1 := Nat.mod_eq_of_lt (by omega)
      have hrec := ih (i + 1) (by omega) (by omega)
      have hidx : i < mb_req_adu.length := by omega
      have htake : i < (mb_req_adu.take L_adu).length := by
        simp only [List.length_take, Nat.min_eq_left hlen]; omega
      have hdrop : (mb_req_adu.take L_adu).drop i =
          mb_req_adu.getD i 0 :: (mb_req_adu.take L_adu).drop (i + 1) := by
        rw [List.drop_eq_getElem_cons htake]
        congr 1
        rw [List.getElem_take]
        exact (List.getD_eq_getElem mb_req_adu 0 hidx).symm
      simp [sendLoop, hlt, hmod, hrec, hdrop]
    · have hnil : (mb_req_adu.take L_adu).length ≤ i := by
        simp only [List.length_take, Nat.min_eq_left hlen]; omega
      simp [sendLoop, hlt, List.drop_eq_nil_of_le hnil]

/-- C10 counterexample: for `L_adu = 128` (the claim says the loop never
terminates for 128-255) the transmit loop exits after exactly 128
iterations, having sent the first 128 bytes: on the ARM EABI targets of
this project plain `char` is unsigned, so the counter reaches 128. -/
theorem claim_C10_counterexample :
    sendLoop (List.replicate 128 7) 128 128 0 =
      some (List.replicate 128 7) := by
  have h := sendLoop_exits (List.replicate 128 7) 128 (by norm_num)
    (by simp) 128 0 (by omega) (by omega)
  simpa using h

/-- C10 (amended): the per-byte transmit loop of `Modbus_OSL_Send`
terminates for every `L_adu ≤ 255` (every unsigned-char length), after
sending exactly the first `L_adu` bytes of the buffer in order: plain
`char` is unsigned 8-bit on the ARM EABI targets of this project, so the
counter ranges over 0-255 and reaches any such `L_adu`. -/
theorem claim_C10_send_terminates (mb_req_adu : List Nat)
    (L_adu fuel : Nat) (h255 : L_adu ≤ 255)
    (hlen : L_adu ≤ mb_req_adu.length) (hfuel : L_adu ≤ fuel) :
    sendLoop mb_req_adu L_adu fuel 0 = some (mb_req_adu.take L_adu) := by
  have h := sendLoop_exits mb_req_adu L_adu h255 hlen fuel 0 (by omega)
    (by omega)
  simpa using h

/-- Witness for C10 at a 130-byte buffer (a length the original claim
said would hang): the loop exits and sends all 130 bytes. -/
theorem claim_C10_send_terminates_witness :
    (130 : Nat) ≤ 255 ∧
    (130 : Nat) ≤ (List.replicate 130 3 : List Nat).length ∧
    (130 : Nat) ≤ 130 ∧
    sendLoop (List.replicate 130 3) 130 130 0 =
      some ((List.replicate 130 3).take 130) := by
  refine ⟨by norm_num, by simp, le_refl _, ?_⟩
  exact claim_C10_send_terminates (List.replicate 130 3) 130 130
    (by norm_num) (by simp) (le_refl _)

/-- Witness for C2: broadcasting a 5-byte PDU from `baseState` lands in
`MODBUS_OSL_DELAY` with the broadcast delay armed, and the Timer-2 expiry
returns to `MODBUS_OSL_IDLE`. -/
theorem claim_C2_broadcast_no_waitreply_witness :
    (Modbus_OSL_Output baseState [6, 0, 1, 0, 2] 0 5).1.mainState =
      MODBUS_OSL_DELAY ∧
    (Modbus_OSL_Output baseState [6, 0, 1, 0, 2] 0 5).1.mainState ≠
      MODBUS_OSL_WAITREPLY ∧
    (Modbus_OSL_Output baseState [6, 0, 1, 0, 2] 0 5).1.timer2Load =
      baseState.timeoutB ∧
    (Modbus_OSL_Output baseState [6, 0, 1, 0, 2] 0 5).1.timer2Enabled =
      true ∧
    Modbus_OSL_Timeouts (Modbus_OSL_Output baseState [6, 0, 1, 0, 2] 0 5).1 =
      TimeoutResult.ok
        { (Modbus_OSL_Output baseState [6, 0, 1, 0, 2] 0 5).1 with
            mainState := MODBUS_OSL_IDLE } :=
  claim_C2_broadcast_no_waitreply baseState [6, 0, 1, 0, 2] 5
